import Mathlib

/-!
Verification development for PySensMG2 (src/PySensMG2.py), a Modbus
register-polling client for the SENS MicroGenius 2 battery charger.

The Python source is shallowly embedded below:
* the pymodbus client DATATYPE enumeration (the external dependency the
  source iterates in get_data_type) becomes a list of DataTypeEntry;
* get_data_type (lines 209-213) becomes an Option-returning lookup, the
  implicit Python None return modelled as none;
* the value scaling / rounding of process_registers (lines 200-204)
  becomes scale_value over exact rationals, with Python round modelled
  as decimal round-half-to-even and int(log10(factor) * -1) modelled by
  the exact integer part of -log10(factor);
* the per-cycle read loop of microgenius2_calls (lines 163-197) becomes
  cycleLoop, a pure function over a read oracle that also emits a trace
  of transport events (resets and reads), the error flag being the Bool
  threaded through the recursion;
* the static register table SENS_MG2_MB_REGISTER_MAP (lines 32-135) is
  transcribed verbatim.
-/

/-- One member of the pymodbus ModbusClientMixin.DATATYPE enumeration:
enum name, struct format character, and number of 16-bit registers. -/
structure DataTypeEntry where
  name : String
  fmt : String
  count : Nat
  deriving DecidableEq, Repr

/-- The pymodbus client DATATYPE enumeration (external dependency; the
source refers to it as ModbusSerialClient.DATATYPE), in declaration
order: (format character, register count) pairs. -/
def DATATYPE : List DataTypeEntry :=
  [⟨"INT16", "h", 1⟩,
   ⟨"UINT16", "H", 1⟩,
   ⟨"INT32", "i", 2⟩,
   ⟨"UINT32", "I", 2⟩,
   ⟨"INT64", "q", 4⟩,
   ⟨"UINT64", "Q", 4⟩,
   ⟨"FLOAT32", "f", 2⟩,
   ⟨"FLOAT64", "d", 4⟩,
   ⟨"STRING", "s", 0⟩,
   ⟨"BITS", "bits", 0⟩]

/-- Embedding of get_data_type (src lines 209-213): scan the DATATYPE
enumeration and return the first entry whose format character equals the
argument.  When no entry matches, the Python loop falls through and the
function implicitly returns None, modelled here as none. -/
def get_data_type (format : String) : Option DataTypeEntry :=
  DATATYPE.find? (fun dt => dt.fmt == format)

/-- One row of the static register table: address, struct format
character, scale factor, register name, and unit string, exactly the
five components of each tuple in SENS_MG2_MB_REGISTER_MAP. -/
structure RegisterDescriptor where
  addr : Nat
  format : String
  factor : ℚ
  comment : String
  unit : String
  deriving DecidableEq, Repr

/-- Round a rational to the nearest integer, ties to even: the rounding
mode of Python's built-in round. -/
def roundHalfEven (x : ℚ) : ℤ :=
  let n := ⌊x⌋
  let r := x - n
  if r < 1 / 2 then n
  else if 1 / 2 < r then n + 1
  else if 2 ∣ n then n else n + 1

/-- Embedding of Python round(x, digits) for a nonnegative digit count:
round x to `digits` decimal places, ties to even. -/
def pyRound (x : ℚ) (digits : ℕ) : ℚ :=
  (roundHalfEven (x * 10 ^ digits) : ℚ) / 10 ^ digits

/-- Embedding of the scaling step of process_registers (src lines
201-203): value = raw / factor, and when factor < 1 the value is rounded
to int(log10(factor) * -1) decimal digits.  For 0 < factor < 1 the
Python expression int(log10(factor) * -1) truncates the positive real
-log10(factor), i.e. it equals the integer part of log10 of 1/factor,
which over exact arithmetic is Nat.log 10 of the floor of 1/factor. -/
def scale_value (raw : ℤ) (factor : ℚ) : ℚ :=
  let value : ℚ := (raw : ℚ) / factor
  if factor < 1 then pyRound value (Nat.log 10 ⌊factor⁻¹⌋₊) else value

/-- Big-endian unsigned composition of 16-bit register words, the word
order pymodbus convert_from_registers uses by default. -/
def wordsToUnsigned (words : List ℕ) : ℕ :=
  words.foldl (fun acc w => acc * 65536 + w % 65536) 0

/-- Format characters of the integer datatypes of the DATATYPE
enumeration. -/
def intFormats : List String := ["h", "H", "i", "I", "q", "Q"]

/-- Format characters of the signed integer datatypes. -/
def signedFormats : List String := ["h", "i", "q"]

/-- Model of pymodbus convert_from_registers restricted to the integer
datatypes: compose the 16-bit words big-endian and reinterpret
two's-complement when the datatype is signed.  Returns none on a word
count mismatch or a non-integer datatype (cases no claim exercises). -/
def convert_from_registers (words : List ℕ) (dt : DataTypeEntry) : Option ℤ :=
  if dt.fmt ∈ intFormats ∧ words.length = dt.count then
    let u := wordsToUnsigned words
    some (if dt.fmt ∈ signedFormats ∧ 2 ^ (16 * dt.count - 1) ≤ u
          then (u : ℤ) - 2 ^ (16 * dt.count)
          else (u : ℤ))
  else none

/-- Embedding of process_registers (src lines 200-204): convert the raw
words per the datatype, then scale (and possibly round) the integer. -/
def process_registers (words : List ℕ) (dt : DataTypeEntry) (factor : ℚ) :
    Option ℚ :=
  (convert_from_registers words dt).map (fun raw => scale_value raw factor)

/-- Outcome of one read_holding_registers call, as the loop body of
microgenius2_calls distinguishes them (src lines 184-197): a successful
response with register words, the call raising ModbusException, the
response object answering isError, or the response being an
ExceptionResponse frame. -/
inductive ReadOutcome where
  | ok (words : List ℕ)
  | modbusException
  | errorResponse
  | exceptionFrame
  deriving DecidableEq, Repr

/-- The three read-failure modes, kept distinct for diagnostics. -/
inductive ErrorKind where
  | modbusException
  | errorResponse
  | exceptionFrame
  deriving DecidableEq, Repr

/-- Per-descriptor record of one cycle: either a successful read with
the raw words, or a failure with its kind.  Successful records model
the reporting log line, failed records the error log lines of the three
failure branches. -/
inductive CycleResult where
  | ok (addr : Nat) (words : List ℕ)
  | fail (addr : Nat) (kind : ErrorKind)
  deriving DecidableEq, Repr

/-- Transport events a cycle performs, in order: a session reset
(close, pause, connect, pause — src lines 172-176) or one
read_holding_registers call with its address and register count. -/
inductive Event where
  | reset
  | read (addr count : Nat)
  deriving DecidableEq, Repr

/-- Result of one whole cycle: whether the loop crashed (get_data_type
returned None and the subsequent attribute access raised), the
per-descriptor records, and the transport event trace. -/
structure CycleOutput where
  aborted : Bool
  results : List CycleResult
  trace : List Event
  deriving DecidableEq, Repr

/-- True on the three failing read outcomes: exactly the branches that
set the error flag (src lines 186-197). -/
def isFailB : ReadOutcome → Bool
  | .ok _ => false
  | _ => true

/-- The record one descriptor contributes given its read outcome. -/
def outcomeResult (addr : Nat) : ReadOutcome → CycleResult
  | .ok words => .ok addr words
  | .modbusException => .fail addr .modbusException
  | .errorResponse => .fail addr .errorResponse
  | .exceptionFrame => .fail addr .exceptionFrame

/-- Embedding of the read loop of microgenius2_calls (src lines
169-197), generalized over the iterated descriptor list and a read
oracle giving each address its outcome.  The Bool argument is the error
flag entering the iteration: when set, the session is reset and the
flag cleared before anything else (lines 171-176).  Then the format is
resolved; a None datatype crashes the loop (the attribute access on
None at line 179), recorded as aborted.  Otherwise the read is
attempted and the three failure checks run in sequence; each failure
branch records the failure, sets the flag for the next iteration and
continues. -/
def cycleLoop (oracle : Nat → ReadOutcome) : Bool → List RegisterDescriptor → CycleOutput
  | _, [] => ⟨false, [], []⟩
  | error, d :: rest =>
    let pre : List Event := if error then [Event.reset] else []
    match get_data_type d.format with
    | none => ⟨true, [], pre⟩
    | some dt =>
      let outcome := oracle d.addr
      let tail := cycleLoop oracle (isFailB outcome) rest
      ⟨tail.aborted, outcomeResult d.addr outcome :: tail.results,
        pre ++ Event.read d.addr dt.count :: tail.trace⟩

/-- One invocation of the poll cycle on a descriptor table: the error
flag starts clear, exactly as microgenius2_calls initializes
error = False at src line 165. -/
def run_cycle (ds : List RegisterDescriptor) (oracle : Nat → ReadOutcome) :
    CycleOutput :=
  cycleLoop oracle false ds

/-- Number of session resets in a transport event trace. -/
def isReset : Event → Bool
  | .reset => true
  | _ => false

/-- Count the reset events of a trace. -/
def countReset (tr : List Event) : ℕ :=
  tr.countP isReset

/-- Rows 0..16 of the register table (split to keep
elaboration cheap). -/
def registerMapPart0 : List RegisterDescriptor :=
  [⟨0, "I", 1, "System Serial Number", "(Num)"⟩,
   ⟨2, "I", 1, "Program Revision", "(Num)"⟩,
   ⟨4, "I", 1, "Bootloader Version", "(Num)"⟩,
   ⟨6, "I", 1, "Device Type", "(Enum)"⟩,
   ⟨8, "i", 1, "Serial Number", "(Num)"⟩,
   ⟨10, "H", 1, "Build Date (year)", "(Num)"⟩,
   ⟨11, "H", 1, "Build Date (month and day)", "(Num)"⟩,
   ⟨12, "I", 1, "Model Number Characters 1-4", "(Bit)"⟩,
   ⟨14, "I", 1, "Model Number Characters 5-8", "(Bit)"⟩,
   ⟨16, "I", 1, "Model Number Characters 9-12", "(Bit)"⟩,
   ⟨18, "I", 1, "Model Number Characters 13-16", "(Bit)"⟩,
   ⟨20, "I", 1, "Model Number Characters 17-20", "(Bit)"⟩,
   ⟨22, "I", 1, "Model Number Characters 21-24", "(Bit)"⟩,
   ⟨24, "I", 1, "Model Number Characters 25-28", "(Bit)"⟩,
   ⟨26, "I", 1, "Model Number Characters 29-32", "(Bit)"⟩,
   ⟨28, "I", 1, "Holding Registers 28-29", "(Num)"⟩,
   ⟨30, "I", 1, "Holding Registers 30-31", "(Num)"⟩,
   ⟨32, "I", 1, "Holding Registers 32-33", "(Num)"⟩]

/-- Rows 17..33 of the register table (split to keep
elaboration cheap). -/
def registerMapPart1 : List RegisterDescriptor :=
  [⟨34, "I", 1, "Holding Registers 34-35", "(Num)"⟩,
   ⟨36, "I", 1, "Number of Cranks Detected", "(Num)"⟩,
   ⟨38, "I", 1, "Number of Cranks Under Threshold", "(Num)"⟩,
   ⟨40, "I", 1, "Holding Register 40-41", "(Num)"⟩,
   ⟨42, "I", 1, "Basic Charging Alarms", "(Bitfield)"⟩,
   ⟨44, "I", 1, "Charging Status", "(Bitfield)"⟩,
   ⟨46, "I", 1, "Charing Alarms Extended", "(Bitfield)"⟩,
   ⟨48, "I", 1, "Charging AC Alarms", "(Bitfield)"⟩,
   ⟨50, "I", 1, "Holding Register 50-51", "(Num)"⟩,
   ⟨52, "I", 1, "Holding Register 52-53", "(Num)"⟩,
   ⟨54, "I", 1, "Holding Register 54-55", "(Num)"⟩,
   ⟨56, "I", 1, "Holding Register 56-57", "(Num)"⟩,
   ⟨58, "I", 1, "Holding Register 58-59", "(Num)"⟩,
   ⟨60, "I", 1, "Holding Register 60-61", "(Num)"⟩,
   ⟨62, "I", 1, "Charger Uptime", "(Sec)"⟩,
   ⟨64, "I", 1, "Holding Register 64-65", "(Num)"⟩,
   ⟨66, "I", 1, "Holding Register 66-67", "(Num)"⟩]

/-- Rows 34..50 of the register table (split to keep
elaboration cheap). -/
def registerMapPart2 : List RegisterDescriptor :=
  [⟨68, "I", 32768, "Default Output Batt Voltage", "(Voltage)"⟩,
   ⟨70, "I", 32768, "Default Output Current", "(Amperage)"⟩,
   ⟨72, "I", 32768, "Default Output Power", "(Watts)"⟩,
   ⟨74, "I", 32768, "Default Output Float Setting", "(V/Cell)"⟩,
   ⟨76, "I", 32768, "Default Output Boost Setting", "(V/Cell)"⟩,
   ⟨78, "I", 32768, "Default Output Remote Temp", "(Celsius)"⟩,
   ⟨80, "I", 32768, "Default Output Internal Temp", "(Celsius)"⟩,
   ⟨82, "I", 1, "Default Boost Elapsed Time", "(Sec)"⟩,
   ⟨84, "I", 1, "Default Periodic Boost Countdown", "(Sec)"⟩,
   ⟨86, "I", 10, "Default Output AC LIne Frequency", "(Hz)"⟩,
   ⟨88, "I", 32768, "Default AC Line Voltage 1", "(Voltage)"⟩,
   ⟨90, "I", 32768, "Default AC Line Current 1", "(Amperage)"⟩,
   ⟨92, "I", 32768, "Default AC Line Voltage 2", "(Votlage)"⟩,
   ⟨94, "I", 32768, "Default AC Line Current 2", "(Amperage)"⟩,
   ⟨96, "I", 32768, "Default AC Line Voltage 3", "(Voltage)"⟩,
   ⟨98, "I", 32768, "Default AC Line Current 3", "(Amperage)"⟩,
   ⟨100, "I", 1, "Battery Check Time Elapsed", "(Sec)"⟩]

/-- Rows 51..67 of the register table (split to keep
elaboration cheap). -/
def registerMapPart3 : List RegisterDescriptor :=
  [⟨102, "I", 1, "Battery Check Due Time", "(Sec)"⟩,
   ⟨104, "I", 1, "Number of Chargers Detected", "(Num"⟩,
   ⟨106, "I", 1, "Holding Register 106-107", "(Num)"⟩,
   ⟨108, "I", 1, "Holding Register 108-109", "(Num)"⟩,
   ⟨110, "I", 1, "Holding Register 110-111", "(Num)"⟩,
   ⟨112, "I", 1, "Holding Register 112-113", "(Num)"⟩,
   ⟨114, "I", 1, "Holding Register 114-115", "(Num)"⟩,
   ⟨116, "I", 1, "Holding Register 116-117", "(Num)"⟩,
   ⟨118, "I", 1, "Holding Register 118-119", "(Num)"⟩,
   ⟨120, "I", 1, "Holding Register 120-121", "(Num)"⟩,
   ⟨122, "I", 1, "Holding Register 122-123", "(Num)"⟩,
   ⟨124, "I", 1, "Holding Register 124-125", "(Num)"⟩,
   ⟨126, "I", 1, "Holding Register 126-127", "(Num)"⟩,
   ⟨128, "I", 32768, "Default Output Max Power", "(V/Cell)"⟩,
   ⟨130, "I", 32768, "Default Output Max Voltage", "(V/Cell)"⟩,
   ⟨132, "I", 32768, "Default Output Max Current", "(Amperage)"⟩,
   ⟨134, "I", 32768, "Default Float Setting", "(V/Cell)"⟩]

/-- Rows 68..84 of the register table (split to keep
elaboration cheap). -/
def registerMapPart4 : List RegisterDescriptor :=
  [⟨136, "I", 32768, "Default Boost Setting", "(V/Cell)"⟩,
   ⟨138, "I", 1, "Default Program Mode", "(Custom)"⟩,
   ⟨140, "I", 32768, "Default Program Cell Count", "(Cells)"⟩,
   ⟨142, "I", 32768, "Default Temp Compensation Slope", "(Celsius/Voltage"⟩,
   ⟨144, "I", 32768, "Low DC Alarm Setpoint", "(V/Cell)"⟩,
   ⟨146, "I", 32768, "Low Crank Alarm Setpoint", "(V/Cell)"⟩,
   ⟨148, "I", 32768, "Low Current Alarm Setpoint", "(Amperage)"⟩,
   ⟨150, "I", 1, "Holding Register 150-151", "(Num)"⟩,
   ⟨152, "I", 32768, "High DC Alarm Setpoint", "(V/Cell)"⟩,
   ⟨154, "I", 32768, "OVSD Alarm Setpoint", "(V/Cell)"⟩,
   ⟨156, "I", 32768, "Battery Discharge Alarm Setpoint", "(V/Cell)"⟩,
   ⟨158, "I", 32768, "End Discharge Alarm Setpoint", "(V/Cell)"⟩,
   ⟨160, "I", 3600, "Boost Time Limit", "(Hours)"⟩,
   ⟨162, "I", 32768, "Current Limit Setting", "(% Rated Amperage"⟩,
   ⟨164, "I", 3600, "Helix Float Time", "(Hours)"⟩,
   ⟨166, "I", 3600, "Helix Refresh Time", "(Hours)"⟩,
   ⟨168, "I", 3600, "Helix Eco Time", "(Hours)"⟩]

/-- Rows 85..100 of the register table (split to keep
elaboration cheap). -/
def registerMapPart5 : List RegisterDescriptor :=
  [⟨170, "I", 86400, "Interval between Periodic Boost", "(Days)"⟩,
   ⟨172, "I", 32768, "Battery Check Voltage Setting", "(V/Cell)"⟩,
   ⟨174, "I", 86400, "Default Battery Check Interval", "(Days)"⟩,
   ⟨176, "I", 60, "Default Battery Check Duration", "(Minutes)"⟩,
   ⟨178, "I", 32768, "Default Commissioning VPC", "(V/Cell)"⟩,
   ⟨180, "I", 3600, "Default Commissioning Duration", "(Hours)"⟩,
   ⟨182, "I", 32768, "Output Commissioning Current", "(Amperage"⟩,
   ⟨184, "I", 32768, "Default Output Rated Power", "(Watts)"⟩,
   ⟨186, "I", 32768, "Default Output Rated Current", "(Amperage)"⟩,
   ⟨188, "I", 3600, "Periodic Boost Duration", "(Hours)"⟩,
   ⟨190, "I", 32768, "Min Allowed Voltage Setting", "(V/Cell)"⟩,
   ⟨192, "I", 1, "Holding Register 192-193", "(Num)"⟩,
   ⟨194, "I", 1, "Holding Register 194-185", "(Num)"⟩,
   ⟨196, "I", 1, "Holding Register 196-197", "(Num)"⟩,
   ⟨198, "I", 1, "Holding Register 198-199", "(Num)"⟩,
   ⟨200, "I", 1, "Holding Register 200-201", "(Num)"⟩]

/-- The static register table SENS_MG2_MB_REGISTER_MAP (src lines
32-135), transcribed verbatim: address, format character, scale factor,
register name, unit string.  Assembled from the part lists above. -/
def SENS_MG2_MB_REGISTER_MAP : List RegisterDescriptor :=
  registerMapPart0 ++ registerMapPart1 ++ registerMapPart2 ++
    registerMapPart3 ++ registerMapPart4 ++ registerMapPart5

/-- One invocation of microgenius2_calls: run the poll cycle over the
static register table with the error flag initialized clear. -/
def microgenius2_calls (oracle : Nat → ReadOutcome) : CycleOutput :=
  run_cycle SENS_MG2_MB_REGISTER_MAP oracle

/-- Register word count a descriptor occupies, derived from its format
code through get_data_type (0 when the code is unsupported). -/
def regWordCount (d : RegisterDescriptor) : Nat :=
  match get_data_type d.format with
  | some dt => dt.count
  | none => 0

/-- Three-descriptor table of the reset scenario: the first three rows
of the static register table. -/
def scenarioTable : List RegisterDescriptor :=
  [⟨0, "I", 1, "System Serial Number", "(Num)"⟩,
   ⟨2, "I", 1, "Program Revision", "(Num)"⟩,
   ⟨4, "I", 1, "Bootloader Version", "(Num)"⟩]

/-- Read oracle of the reset scenario: the read of descriptor number 2
(address 2) raises ModbusException, every other read succeeds. -/
def scenarioOracle : Nat → ReadOutcome :=
  fun a => if a = 2 then ReadOutcome.modbusException else ReadOutcome.ok [0, 0]

/-- Read oracle exercising all three failure modes, one per descriptor
of scenarioTable. -/
def allFailuresOracle : Nat → ReadOutcome :=
  fun a =>
    if a = 0 then ReadOutcome.modbusException
    else if a = 2 then ReadOutcome.errorResponse
    else ReadOutcome.exceptionFrame

/-- Value decoder as the specification words it, digits computed with
the ceiling: value = raw / factor, and when factor < 1 the value is
rounded to ceil(-log10 factor) decimal digits.  For 0 < factor < 1 the
ceiling of log10 of 1/factor is the least d with 1/factor at most 10^d,
which over exact arithmetic is Nat.clog 10 of the ceiling of 1/factor.
Stated for comparison with scale_value, the decoder of the source. -/
def decode_spec_ceil (raw : ℤ) (factor : ℚ) : ℚ :=
  if factor < 1 then pyRound ((raw : ℚ) / factor) (Nat.clog 10 ⌈factor⁻¹⌉₊)
  else (raw : ℚ) / factor

/-- First row of the static register table, used as a concrete
instance. -/
def firstRegister : RegisterDescriptor :=
  ⟨0, "I", 1, "System Serial Number", "(Num)"⟩


/-- A register whose scale factor is at least 1 is never rounded: the
rounding branch of scale_value requires factor < 1. -/
theorem scale_value_of_one_le (raw : ℤ) (factor : ℚ) (h : 1 ≤ factor) :
    scale_value raw factor = (raw : ℚ) / factor := by
  simp [scale_value, not_lt.mpr h]

/-- The poll loop never aborts on read failures and produces one record
per descriptor in table order, independent of the incoming error flag,
provided every format code resolves. -/
theorem cycleLoop_results (oracle : Nat → ReadOutcome)
    (ds : List RegisterDescriptor) :
    ∀ flag : Bool,
      (∀ d ∈ ds, (get_data_type d.format).isSome = true) →
      (cycleLoop oracle flag ds).aborted = false ∧
      (cycleLoop oracle flag ds).results =
        ds.map (fun d => outcomeResult d.addr (oracle d.addr)) := by
  induction ds with
  | nil => intro flag _; simp [cycleLoop]
  | cons d rest ih =>
    intro flag h
    obtain ⟨dt, hdt⟩ :=
      Option.isSome_iff_exists.mp (h d (List.mem_cons_self d rest))
    have hrec := ih (isFailB (oracle d.addr))
      (fun x hx => h x (List.mem_cons_of_mem d hx))
    simp [cycleLoop, hdt, hrec.1, hrec.2]

/-- Reset count of a cycle trace: one reset per failed read among all
but the last descriptor, plus one leading reset when the incoming error
flag is set and the table is nonempty.  A failure of the last
descriptor contributes no reset: its flag dies with the loop. -/
theorem countReset_cycleLoop (oracle : Nat → ReadOutcome)
    (ds : List RegisterDescriptor) :
    ∀ flag : Bool,
      (∀ d ∈ ds, (get_data_type d.format).isSome = true) →
      countReset (cycleLoop oracle flag ds).trace =
        ds.dropLast.countP (fun d => isFailB (oracle d.addr)) +
          (if flag = true ∧ ds ≠ [] then 1 else 0) := by
  induction ds with
  | nil => intro flag _; simp [cycleLoop, countReset]
  | cons d rest ih =>
    intro flag h
    obtain ⟨dt, hdt⟩ :=
      Option.isSome_iff_exists.mp (h d (List.mem_cons_self d rest))
    have hrec := ih (isFailB (oracle d.addr))
      (fun x hx => h x (List.mem_cons_of_mem d hx))
    have htrace : (cycleLoop oracle flag (d :: rest)).trace =
        (if flag then [Event.reset] else []) ++
          Event.read d.addr dt.count ::
            (cycleLoop oracle (isFailB (oracle d.addr)) rest).trace := by
      simp [cycleLoop, hdt]
    have hpre : List.countP isReset (if flag then [Event.reset] else []) =
        if flag then 1 else 0 := by
      cases flag <;> simp [isReset]
    rw [countReset, htrace, List.countP_append, List.countP_cons, hpre]
    rw [countReset] at hrec
    rw [hrec]
    cases rest with
    | nil => cases flag <;> simp [isReset]
    | cons e rest2 =>
      cases flag <;> cases hfail : isFailB (oracle d.addr) <;>
        simp [isReset, List.dropLast, List.countP_cons, hfail] <;> omega

/-- C9: decoding with a scale factor of 1 is the identity on the raw
integer — value = raw / 1 = raw, and the rounding branch is not taken
since 1 is not less than 1. -/
theorem scale_value_factor_one_identity (raw : ℤ) :
    scale_value raw 1 = (raw : ℚ) := by
  simp [scale_value]

/-- C10: every entry of the static register table has a scale factor in
the set written in the source — 1, 10, 60, 3600, 32768 or 86400 — hence
at least 1, so the factor-less-than-1 rounding branch of the decoder is
unreachable for table registers: their value is always the plain
quotient raw / factor, never rounded. -/
theorem register_map_factors_ge_one (d : RegisterDescriptor)
    (h : d ∈ SENS_MG2_MB_REGISTER_MAP) :
    d.factor ∈ [(1 : ℚ), 10, 60, 3600, 32768, 86400] ∧ 1 ≤ d.factor ∧
      ∀ raw : ℤ, scale_value raw d.factor = (raw : ℚ) / d.factor := by
  have hall : ∀ e ∈ SENS_MG2_MB_REGISTER_MAP,
      e.factor ∈ [(1 : ℚ), 10, 60, 3600, 32768, 86400] ∧ 1 ≤ e.factor := by
    decide
  obtain ⟨h1, h2⟩ := hall d h
  exact ⟨h1, h2, fun raw => scale_value_of_one_le raw d.factor h2⟩

/-- Witness for C10 at the first table row, with the conclusion further
instantiated at raw = 5. -/
theorem register_map_factors_ge_one_witness :
    firstRegister ∈ SENS_MG2_MB_REGISTER_MAP ∧
    firstRegister.factor ∈ [(1 : ℚ), 10, 60, 3600, 32768, 86400] ∧
    1 ≤ firstRegister.factor ∧
    scale_value 5 firstRegister.factor = ((5 : ℤ) : ℚ) / firstRegister.factor :=
  have h := register_map_factors_ge_one firstRegister (by decide)
  ⟨by decide, h.1, h.2.1, h.2.2 5⟩

/-- C7: in the static register table the addresses are pairwise
distinct, and no entry overlaps its successor: each address plus the
register word count derived from its format code is at most the next
entry's address. -/
theorem register_map_no_overlap :
    List.Chain' (fun a b => a.addr + regWordCount a ≤ b.addr)
      SENS_MG2_MB_REGISTER_MAP ∧
    List.Pairwise (fun a b => a.addr ≠ b.addr) SENS_MG2_MB_REGISTER_MAP := by
  constructor
  · exact List.Pairwise.chain' (by decide)
  · decide

/-- C2: a format code outside the supported enumeration resolves to
nothing — get_data_type falls through its loop and yields None, never a
fallback or default mapping. -/
theorem get_data_type_unknown_format (format : String)
    (h : format ∉ DATATYPE.map DataTypeEntry.fmt) :
    get_data_type format = none := by
  rw [get_data_type, List.find?_eq_none]
  intro dt hdt hbeq
  exact h (List.mem_map.mpr ⟨dt, hdt, by simpa using hbeq⟩)

/-- Witness for C2 at the unsupported format code x. -/
theorem get_data_type_unknown_format_witness :
    "x" ∉ DATATYPE.map DataTypeEntry.fmt ∧ get_data_type "x" = none :=
  ⟨by decide, get_data_type_unknown_format "x" (by decide)⟩

/-- C8 counterexample: the format code q is in the supported set (it is
the INT64 member of the pymodbus DATATYPE enumeration) and the resolver
returns it with word count 4, which is neither 1 nor 2. -/
theorem word_count_int64_counterexample :
    get_data_type "q" = some ⟨"INT64", "q", 4⟩ ∧
    ¬((⟨"INT64", "q", 4⟩ : DataTypeEntry).count = 1 ∨
      (⟨"INT64", "q", 4⟩ : DataTypeEntry).count = 2) := by
  exact ⟨by decide, by decide⟩

/-- C8 amended: the supported set also contains 64-bit and aggregate
codes whose word counts are 4 or 0; restricted to the format codes the
register table actually uses, the resolver always returns a mapping
with word count 1 or 2. -/
theorem register_map_word_counts :
    ∀ d ∈ SENS_MG2_MB_REGISTER_MAP,
      ∃ dt ∈ DATATYPE, get_data_type d.format = some dt ∧
        (dt.count = 1 ∨ dt.count = 2) := by
  decide

/-- Witness for the amended C8 at the first table row. -/
theorem register_map_word_counts_witness :
    firstRegister ∈ SENS_MG2_MB_REGISTER_MAP ∧
    ∃ dt ∈ DATATYPE, get_data_type firstRegister.format = some dt ∧
      (dt.count = 1 ∨ dt.count = 2) :=
  ⟨by decide, register_map_word_counts firstRegister (by decide)⟩

/-- C5 counterexample: raw words 0x0000 0x0001 decoded as unsigned
32-bit big-endian with scale factor 32768 give exactly 1/32768, and
1/32768 differs from 0.00003 — the value the claim predicts by rounding
to 5 decimal digits (pyRound (1/32768) 5 is indeed 3/100000, but the
code never applies it since 32768 is not less than 1). -/
theorem decode_32768_rounding_counterexample :
    process_registers [0, 1] ⟨"UINT32", "I", 2⟩ 32768 = some (1 / 32768) ∧
    pyRound (1 / 32768) 5 = 3 / 100000 ∧
    (1 / 32768 : ℚ) ≠ 3 / 100000 := by
  refine ⟨?_, ?_, by norm_num⟩
  · have hconv : convert_from_registers [0, 1] ⟨"UINT32", "I", 2⟩ = some 1 := by
      simp [convert_from_registers, intFormats, signedFormats, wordsToUnsigned]
    rw [process_registers, hconv, Option.map_some', scale_value]
    norm_num
  · have harg : ((1 : ℚ) / 32768) * 10 ^ 5 = 3125 / 1024 := by norm_num
    have hfl : ⌊(3125 / 1024 : ℚ)⌋ = 3 := by
      rw [Int.floor_eq_iff]
      norm_num
    have hr : roundHalfEven (3125 / 1024) = 3 := by
      rw [roundHalfEven, hfl]
      norm_num
    rw [pyRound, harg, hr]
    norm_num

/-- C5 amended: raw words 0x0000 0x0001 decoded as unsigned 32-bit
big-endian with scale factor 32768 yield exactly 1/32768 =
0.000030517578125, unrounded, because the rounding branch requires a
scale factor below 1. -/
theorem decode_32768_unrounded :
    process_registers [0, 1] ⟨"UINT32", "I", 2⟩ 32768 = some (1 / 32768) ∧
    convert_from_registers [0, 1] ⟨"UINT32", "I", 2⟩ = some 1 ∧
    scale_value 1 32768 = 1 / 32768 := by
  have hconv : convert_from_registers [0, 1] ⟨"UINT32", "I", 2⟩ = some 1 := by
    simp [convert_from_registers, intFormats, signedFormats, wordsToUnsigned]
  have hs : scale_value 1 32768 = 1 / 32768 := by
    rw [scale_value]
    norm_num
  exact ⟨by rw [process_registers, hconv, Option.map_some', hs], hconv, hs⟩


/-- C3: for every descriptor table whose format codes all resolve and
every behaviour of the transport, the poll cycle contains all three
read-failure modes inside the loop: it never aborts, and it produces
exactly one record per descriptor in table order — a failure record for
a failing read, a success record otherwise — so a failed read is
recorded and processing continues with the next descriptor. -/
theorem read_failures_never_escape_cycle (ds : List RegisterDescriptor)
    (oracle : Nat → ReadOutcome)
    (h : ∀ d ∈ ds, (get_data_type d.format).isSome = true) :
    (run_cycle ds oracle).aborted = false ∧
    (run_cycle ds oracle).results =
      ds.map (fun d => outcomeResult d.addr (oracle d.addr)) :=
  cycleLoop_results oracle ds false h

/-- Witness for C3: a three-descriptor cycle in which the reads fail
with, in order, a ModbusException, an error response and an exception
frame, still yields three failure records and no abort. -/
theorem read_failures_never_escape_cycle_witness :
    (∀ d ∈ scenarioTable, (get_data_type d.format).isSome = true) ∧
    ((run_cycle scenarioTable allFailuresOracle).aborted = false ∧
     (run_cycle scenarioTable allFailuresOracle).results =
       scenarioTable.map
         (fun d => outcomeResult d.addr (allFailuresOracle d.addr))) :=
  ⟨by decide,
   read_failures_never_escape_cycle scenarioTable allFailuresOracle (by decide)⟩

/-- C4: resets happen exactly once per failed read, at the start of the
next descriptor's processing — the trace of a cycle contains exactly
one reset for each failed read among all but the last descriptor (the
flag being cleared by the reset, a single failure never triggers two
resets), and in the 3-descriptor scenario where descriptor number 2
fails the records are ok, fail, ok and the trace shows the single reset
immediately before the read of descriptor number 3. -/
theorem reset_once_before_next_read (ds : List RegisterDescriptor)
    (oracle : Nat → ReadOutcome)
    (h : ∀ d ∈ ds, (get_data_type d.format).isSome = true) :
    countReset (run_cycle ds oracle).trace =
      ds.dropLast.countP (fun d => isFailB (oracle d.addr)) ∧
    run_cycle scenarioTable scenarioOracle =
      ⟨false,
       [CycleResult.ok 0 [0, 0], CycleResult.fail 2 ErrorKind.modbusException,
        CycleResult.ok 4 [0, 0]],
       [Event.read 0 2, Event.read 2 2, Event.reset, Event.read 4 2]⟩ := by
  constructor
  · have hc := countReset_cycleLoop oracle ds false h
    simpa [run_cycle] using hc
  · decide

/-- Witness for C4 at the scenario table and oracle. -/
theorem reset_once_before_next_read_witness :
    (∀ d ∈ scenarioTable, (get_data_type d.format).isSome = true) ∧
    (countReset (run_cycle scenarioTable scenarioOracle).trace =
       scenarioTable.dropLast.countP
         (fun d => isFailB (scenarioOracle d.addr)) ∧
     run_cycle scenarioTable scenarioOracle =
       ⟨false,
        [CycleResult.ok 0 [0, 0], CycleResult.fail 2 ErrorKind.modbusException,
         CycleResult.ok 4 [0, 0]],
        [Event.read 0 2, Event.read 2 2, Event.reset, Event.read 4 2]⟩) :=
  ⟨by decide,
   reset_once_before_next_read scenarioTable scenarioOracle (by decide)⟩

/-- C6: the error flag is not carried across cycles.  Each invocation
initializes the flag to False (src line 165), so whatever happened in
any earlier cycle — the oracle argument is the only input — no cycle
ever begins with a session reset: the first transport event of
run_cycle on any table is never a reset, and an invocation of
microgenius2_calls on the static table always starts by reading
address 0 with count 2. -/
theorem cycle_starts_with_clear_error_flag (ds : List RegisterDescriptor)
    (oracle : Nat → ReadOutcome) :
    (run_cycle ds oracle).trace.head? ≠ some Event.reset ∧
    (microgenius2_calls oracle).trace.head? = some (Event.read 0 2) := by
  constructor
  · cases ds with
    | nil => simp [run_cycle, cycleLoop]
    | cons d rest =>
      cases hdt : get_data_type d.format <;>
        simp [run_cycle, cycleLoop, hdt]
  · rfl

/-- C1 amended: the decoder always computes value = raw / factor, and
when 0 < factor < 1 it rounds to d decimal digits where d is the
truncation (floor) of -log10(factor) — characterized here without any
logarithm: d is the unique natural number with 10^d ≤ 1/factor <
10^(d+1).  When factor ≥ 1 no rounding is applied. -/
theorem scale_value_scaling_law (raw : ℤ) (factor : ℚ) (h0 : 0 < factor) :
    (1 ≤ factor → scale_value raw factor = (raw : ℚ) / factor) ∧
    (factor < 1 → ∃ d : ℕ, (10 : ℚ) ^ d ≤ factor⁻¹ ∧
      factor⁻¹ < (10 : ℚ) ^ (d + 1) ∧
      scale_value raw factor = pyRound ((raw : ℚ) / factor) d) := by
  constructor
  · exact scale_value_of_one_le raw factor
  · intro hlt
    refine ⟨Nat.log 10 ⌊factor⁻¹⌋₊, ?_, ?_, ?_⟩
    · have hx : (1 : ℚ) < factor⁻¹ := by
        rw [← one_div]
        exact (one_lt_div h0).mpr hlt
      have hn : 1 ≤ ⌊factor⁻¹⌋₊ := Nat.le_floor (by exact_mod_cast hx.le)
      have hpow : 10 ^ Nat.log 10 ⌊factor⁻¹⌋₊ ≤ ⌊factor⁻¹⌋₊ :=
        Nat.pow_log_le_self 10 (by omega)
      calc (10 : ℚ) ^ Nat.log 10 ⌊factor⁻¹⌋₊
          = ((10 ^ Nat.log 10 ⌊factor⁻¹⌋₊ : ℕ) : ℚ) := by push_cast; ring
        _ ≤ (⌊factor⁻¹⌋₊ : ℚ) := by exact_mod_cast hpow
        _ ≤ factor⁻¹ := Nat.floor_le (by positivity)
    · have hpow : ⌊factor⁻¹⌋₊ < 10 ^ (Nat.log 10 ⌊factor⁻¹⌋₊ + 1) :=
        Nat.lt_pow_succ_log_self (by norm_num) _
      have hlt1 : factor⁻¹ < (⌊factor⁻¹⌋₊ : ℚ) + 1 := Nat.lt_floor_add_one _
      have hle : (⌊factor⁻¹⌋₊ : ℚ) + 1 ≤ (10 : ℚ) ^ (Nat.log 10 ⌊factor⁻¹⌋₊ + 1) := by
        have h1 : ⌊factor⁻¹⌋₊ + 1 ≤ 10 ^ (Nat.log 10 ⌊factor⁻¹⌋₊ + 1) := hpow
        calc (⌊factor⁻¹⌋₊ : ℚ) + 1
            = ((⌊factor⁻¹⌋₊ + 1 : ℕ) : ℚ) := by push_cast; ring
          _ ≤ ((10 ^ (Nat.log 10 ⌊factor⁻¹⌋₊ + 1) : ℕ) : ℚ) := by
              exact_mod_cast h1
          _ = (10 : ℚ) ^ (Nat.log 10 ⌊factor⁻¹⌋₊ + 1) := by push_cast; ring
      exact hlt1.trans_le hle
    · simp [scale_value, hlt]

/-- Witness for the amended C1 at raw = 1, factor = 1/2: rounding to
d = 0 digits with 10^0 ≤ 2 < 10^1. -/
theorem scale_value_scaling_law_witness :
    (0 : ℚ) < 1 / 2 ∧
    ((1 ≤ (1 / 2 : ℚ) → scale_value 1 (1 / 2) = ((1 : ℤ) : ℚ) / (1 / 2)) ∧
     ((1 / 2 : ℚ) < 1 → ∃ d : ℕ, (10 : ℚ) ^ d ≤ (1 / 2 : ℚ)⁻¹ ∧
        (1 / 2 : ℚ)⁻¹ < (10 : ℚ) ^ (d + 1) ∧
        scale_value 1 (1 / 2) = pyRound (((1 : ℤ) : ℚ) / (1 / 2)) d)) :=
  ⟨by norm_num, scale_value_scaling_law 1 (1 / 2) (by norm_num)⟩

/-- C1 counterexample: at factor = 7/10 the claim rounds to
ceil(-log10(7/10)) = 1 decimal digit (decode_spec_ceil, the decoder as
the specification words it), giving 7/5 for raw = 1; the code truncates
-log10(7/10) to 0 digits and yields 1.  The two decoders disagree. -/
theorem scale_value_ceil_digits_counterexample :
    scale_value 1 (7 / 10) = 1 ∧ decode_spec_ceil 1 (7 / 10) = 7 / 5 ∧
    scale_value 1 (7 / 10) ≠ decode_spec_ceil 1 (7 / 10) := by
  have hinv : ((7 : ℚ) / 10)⁻¹ = 10 / 7 := by norm_num
  have hfloorN : ⌊((7 : ℚ) / 10)⁻¹⌋₊ = 1 := by
    rw [hinv, Nat.floor_eq_iff (by norm_num)]
    norm_num
  have hceilN : ⌈((7 : ℚ) / 10)⁻¹⌉₊ = 2 := by
    rw [hinv, Nat.ceil_eq_iff (by norm_num)]
    norm_num
  have hlog : Nat.log 10 ⌊((7 : ℚ) / 10)⁻¹⌋₊ = 0 := by
    rw [hfloorN]
    exact Nat.log_of_lt (by norm_num)
  have hclog : Nat.clog 10 ⌈((7 : ℚ) / 10)⁻¹⌉₊ = 1 := by
    rw [hceilN]
    exact Nat.clog_eq_one (by norm_num) (by norm_num)
  have hfl0 : ⌊(10 / 7 : ℚ)⌋ = 1 := by
    rw [Int.floor_eq_iff]
    norm_num
  have hfl1 : ⌊(100 / 7 : ℚ)⌋ = 14 := by
    rw [Int.floor_eq_iff]
    norm_num
  have h1 : scale_value 1 (7 / 10) = 1 := by
    rw [scale_value]
    rw [if_pos (by norm_num : (7 / 10 : ℚ) < 1), hlog]
    have harg : (((1 : ℤ) : ℚ) / (7 / 10)) * 10 ^ 0 = 10 / 7 := by norm_num
    rw [pyRound, harg, roundHalfEven, hfl0]
    norm_num
  have h2 : decode_spec_ceil 1 (7 / 10) = 7 / 5 := by
    rw [decode_spec_ceil]
    rw [if_pos (by norm_num : (7 / 10 : ℚ) < 1), hclog]
    have harg : (((1 : ℤ) : ℚ) / (7 / 10)) * 10 ^ 1 = 100 / 7 := by norm_num
    rw [pyRound, harg, roundHalfEven, hfl1]
    norm_num
  refine ⟨h1, h2, ?_⟩
  rw [h1, h2]
  norm_num
